import Mathlib

/-!
Verification of the ensime-sublime client (`ensimesublime/client.py`).

The development shallowly embeds the connection/session manager:

* `getResponse` models `EnsimeClient.get_response` (client.py lines 220-249).
  The concurrently mutated `self.responses` dict is abstracted as a schedule
  `sched : ℕ → Registry` giving the registry contents seen at each dict read:
  read 0 is the `wait = should_wait and call_id not in self.responses` check,
  and read `i + 1` is the one performed by loop iteration `i` (the two dict
  accesses inside one iteration are treated as a single atomic read, as the
  module docstring of `queue_poll` assumes).  Wall-clock time is measured in
  integer quarter-second ticks (every sleep in the source is a multiple of
  0.25 s): the origin is the `start, now = time.time(), time.time()` line,
  `time.sleep(0.25)` advances the clock by 1 tick, and a timeout of `T`
  seconds in the source is `4 * T` ticks here (`timeout=30` becomes 120).
  Statements inside a single iteration take no model time.  The polling loop
  is driven by explicit fuel:
  outcome `spin` means the fuel ran out, which is how the model renders a
  loop that never makes progress towards its exit condition.
* `queuePollLoop` models the receiver loop `queue_poll` (lines 65-93).
* `sendM`, `connectM`, `sendRequestM` model `send`, `connect_ensime_server`
  and `send_request` (lines 143-218) over an explicit event trace.

Machine integers do not overflow here (Python ints), so counters are `Int`.
-/

/-- A payload value attached under the `"payload"` key of a parsed JSON
envelope.  The client never inspects payloads beyond their Python truthiness
(`if result["payload"]:`), so the model keeps the truthiness bit and an
opaque tag. -/
structure PyPayload where
  truthy : Bool
  tag : String
deriving DecidableEq, Repr

/-- A Python value stored in the `self.responses` dict.  `queue_poll` stores
parsed JSON dicts there; tests or unusual flows may store strings such as
`"nil"` (the nil sentinel checked by `result != "nil"`).  A dict is described
by its `"callId"` entry (`none` = key absent), its `"payload"` entry
(`none` = key absent) and whether it has any further keys (`extra`, which
only matters for Python truthiness of the dict). -/
inductive PyVal where
  | str (s : String)
  | dict (callId : Option Int) (payload : Option PyPayload) (extra : Bool)
deriving DecidableEq, Repr

/-- Python truthiness of a stored value: a string is truthy iff nonempty, a
dict is truthy iff it has at least one key. -/
def PyVal.truthy : PyVal → Bool
  | .str s => !s.isEmpty
  | .dict c p e => c.isSome || p.isSome || e

/-- Whether the value equals the Python string `"nil"` (the comparison
`result != "nil"` in `get_response`; a dict never equals a string). -/
def PyVal.isNilStr : PyVal → Bool
  | .str s => s = "nil"
  | .dict _ _ _ => false

/-- The `get_response` test `result and result != "nil"`: the stored value is
a real answer, not the nil sentinel and not falsy. -/
def Qualify (v : PyVal) : Bool := v.truthy && !v.isNilStr

/-- The `self.responses` dict: an association list from call id to stored
value (Python dict keys are unique; all operations below preserve that). -/
abbrev Registry := List (Int × PyVal)

/-- Dict lookup `d.get(k)` / `d[k]`. -/
def rlookup : Registry → Int → Option PyVal
  | [], _ => none
  | (a, v) :: t, k => if a = k then some v else rlookup t k

/-- Dict membership `k in d`. -/
def rmem (r : Registry) (k : Int) : Bool := (rlookup r k).isSome

/-- Dict deletion `del d[k]` (the `KeyError` case is handled by callers). -/
def rerase : Registry → Int → Registry
  | [], _ => []
  | (a, v) :: t, k => if a = k then rerase t k else (a, v) :: rerase t k

/-- Dict store `d[k] = v`, overwriting any previous value for `k`. -/
def rinsert (r : Registry) (k : Int) (v : PyVal) : Registry :=
  (k, v) :: rerase r k

/-- How a `get_response` call ended.  `ok b` is a normal `return b`;
`keyErrPayload` is the `KeyError` raised by `result["payload"]` when the
stored dict has no `"payload"` key; `keyErrDel k` is the `KeyError` raised by
`del self.responses[call_id]` when the re-read inner call id `k` is not a
registry key (`none` models Python's `None`); `attrErr` is the
`AttributeError` raised by `result.get("callId")` on a non-dict value;
`spin` means the polling loop ran out of model fuel without reaching an
exit. -/
inductive GROutcome where
  | ok (b : Bool)
  | keyErrPayload
  | keyErrDel (k : Option Int)
  | attrErr
  | spin
deriving DecidableEq, Repr

/-- Observable result of a `get_response` call: its outcome, the value of the
`now` clock variable when it ended, the `handle_incoming_response` calls it
made (re-read call id and payload, in order), and the registry key it
deleted, if any (`none` means the call did not mutate the registry). -/
structure GRResult where
  outcome : GROutcome
  elapsed : ℤ
  handled : List (Option Int × PyPayload)
  deleted : Option Int
deriving DecidableEq, Repr

/-- The `while wait and (now - start) < timeout` loop of `get_response`
(client.py lines 227-244).  `n` indexes the next registry read in the
schedule, `start` and `now` are the local clock variables, `hs` accumulates
handler calls.  Being inside the loop means `wait` is truthy, so `wait` is
not part of the state: the branch that sets `wait = None` returns directly,
modelling that the while condition then fails.  The trailing
`if (now - start) >= timeout: return False / return True` check is folded
into each exit. -/
def grStep (sched : ℕ → Registry) (cid : Int) (timeout : ℤ) :
    ℕ → ℕ → ℤ → ℤ → List (Option Int × PyPayload) → GRResult
  | 0, _, _, now, hs => ⟨GROutcome.spin, now, hs, none⟩
  | f + 1, n, start, now, hs =>
    if now - start < timeout then
      match rlookup (sched n) cid with
      | none =>
        -- `if call_id not in self.responses: time.sleep(0.25); now = time.time()`
        -- (one tick passes)
        grStep sched cid timeout f (n + 1) start (now + 1) hs
      | some result =>
        if Qualify result then
          -- `wait = None; start, now = time.time(), time.time()` then the
          -- consume path; the loop then exits and the final check runs with
          -- `now - start = 0`.
          match result with
          | PyVal.str _ => ⟨GROutcome.attrErr, now, hs, none⟩
          | PyVal.dict inner payload _ =>
            match payload with
            | none => ⟨GROutcome.keyErrPayload, now, hs, none⟩
            | some p =>
              let hs' := if p.truthy then hs ++ [(inner, p)] else hs
              match inner with
              | none => ⟨GROutcome.keyErrDel none, now, hs', none⟩
              | some k =>
                if rmem (sched n) k then
                  ⟨GROutcome.ok (decide (0 < timeout)), now, hs', some k⟩
                else
                  ⟨GROutcome.keyErrDel (some k), now, hs', none⟩
        else
          -- nil sentinel: only a debug log; `now`, `start` are not touched.
          grStep sched cid timeout f (n + 1) start now hs
    else ⟨GROutcome.ok false, now, hs, none⟩

/-- `EnsimeClient.get_response(call_id, timeout, should_wait)`
(client.py lines 220-249). -/
def getResponse (sched : ℕ → Registry) (fuel : ℕ) (cid : Int)
    (timeout : ℤ) (should_wait : Bool) : GRResult :=
  if should_wait && !(rmem (sched 0) cid) then
    grStep sched cid timeout fuel 1 0 0 []
  else
    -- `wait` is falsy: the loop body never runs and the final check sees
    -- `now - start = 0`.
    ⟨GROutcome.ok (decide (0 < timeout)), 0, [], none⟩

/-- An envelope of the shape the protocol normally delivers for `cid`: a
dict carrying `cid` itself under `"callId"` and having a `"payload"` key. -/
def GoodEntry (cid : Int) (v : PyVal) : Prop :=
  ∃ p ex, v = PyVal.dict (some cid) (some p) ex

/-- Schedule for the C1 witness: a well-formed response for id 3 appears at
the second loop read and stays. -/
def c1WitnessSched : ℕ → Registry :=
  fun n => if n = 0 then []
    else [(3, PyVal.dict (some 3) (some ⟨true, "pong"⟩) false)]

/-- Schedule for the first C3 witness conjunct: the nil sentinel for id 5 at
every loop read. -/
def c3WitnessSched1 : ℕ → Registry :=
  fun n => if n = 0 then [] else [(5, PyVal.str "nil")]

/-- Schedule for the second C3 witness conjunct: nil at the first two loop
reads, then a well-formed envelope. -/
def c3WitnessSched2 : ℕ → Registry :=
  fun n => if n = 0 then []
    else if n < 3 then [(5, PyVal.str "nil")]
    else [(5, PyVal.dict (some 5) (some ⟨true, "late"⟩) true)]

/-- One received item as seen by a `queue_poll` iteration that reaches the
receive: either `self.ws.recv()` raised `WebSocketException`, or
`json.loads` raised on a malformed message, or a parsed JSON dict with the
given `"callId"` entry, `"payload"` entry and `extra` flag for other
keys. -/
inductive RecvEv where
  | wsError
  | badJson
  | msg (callId : Option Int) (payload : Option PyPayload) (extra : Bool)
deriving DecidableEq, Repr

/-- Environment of the receiver loop.  `running`, `ws` (`self.ws is not
None`) and `connected` are written by other threads, so the model reads
them from per-iteration schedules; `events n` is the result of the blocking
`self.ws.recv()` at iteration `n` (consulted only when a websocket
exists). -/
structure PollEnv where
  running : ℕ → Bool
  ws : ℕ → Bool
  connected : ℕ → Bool
  events : ℕ → RecvEv

/-- How the receiver loop ended within the given fuel.  `stopped n`: the
`while self.running` check failed at iteration `n`.  `crashed n`: iteration
`n` raised an exception that `catch(websocket.WebSocketException, …)` does
not catch (a `json.loads` failure, or the `KeyError` from
`_json["payload"]` on an envelope with no call id and no payload key),
killing the poller thread.  `fuelOut`: still looping. -/
inductive PollEnd where
  | stopped (n : ℕ)
  | crashed (n : ℕ)
  | fuelOut
deriving DecidableEq, Repr

/-- Observables of a receiver-loop run: how it ended, the final `responses`
registry, the `handle_incoming_response` calls for unsolicited messages,
and how many times `log_and_close` ran its shutdown-and-warn path. -/
structure PollResult where
  endState : PollEnd
  reg : Registry
  handled : List (Option Int × PyPayload)
  shutdowns : ℕ
deriving DecidableEq, Repr

/-- `EnsimeClient.queue_poll` (client.py lines 65-93).  One fuel unit per
loop iteration; each iteration ends with `time.sleep(sleep_t)` (2 ticks),
not tracked here because no claim depends on the receiver's clock. -/
def queuePollAux (env : PollEnv) :
    ℕ → ℕ → Registry → List (Option Int × PyPayload) → ℕ → PollResult
  | 0, _, reg, hs, sd => ⟨PollEnd.fuelOut, reg, hs, sd⟩
  | f + 1, n, reg, hs, sd =>
    if env.running n then
      if env.ws n then
        match env.events n with
        | RecvEv.wsError =>
          -- caught by `catch`; `log_and_close` shuts down and warns only if
          -- `self.connected`; either way the loop continues.
          queuePollAux env f (n + 1) reg hs
            (if env.connected n then sd + 1 else sd)
        | RecvEv.badJson => ⟨PollEnd.crashed n, reg, hs, sd⟩
        | RecvEv.msg cid pay ex =>
          match cid with
          | some k =>
            -- `self.responses[call_id] = _json`
            queuePollAux env f (n + 1)
              (rinsert reg k (PyVal.dict (some k) pay ex)) hs sd
          | none =>
            match pay with
            | none => ⟨PollEnd.crashed n, reg, hs, sd⟩
            | some p =>
              if p.truthy then
                queuePollAux env f (n + 1) reg (hs ++ [(none, p)]) sd
              else
                queuePollAux env f (n + 1) reg hs sd
      else queuePollAux env f (n + 1) reg hs sd
    else ⟨PollEnd.stopped n, reg, hs, sd⟩

/-- The receiver loop, started (as in `__init__`) with the given initial
registry, no handler calls and no shutdowns. -/
def queuePollLoop (env : PollEnv) (fuel : ℕ) (reg : Registry) : PollResult :=
  queuePollAux env fuel 0 reg [] 0

/-- A received item that the loop body survives: a transport error (caught),
or a message carrying a call id, or one with a payload key.  `json.loads`
failures and messages with neither key raise uncaught exceptions. -/
def SafeEv : RecvEv → Bool
  | RecvEv.wsError => true
  | RecvEv.badJson => false
  | RecvEv.msg cid pay _ => cid.isSome || pay.isSome

/-- Environment for the C6 witness: always running, websocket present, a
transport receive error at every iteration. -/
def c6WitnessEnv : PollEnv :=
  ⟨fun _ => true, fun _ => true, fun _ => true, fun _ => RecvEv.wsError⟩

/-- Environment for the C4 witness: the envelope for id 4 arrives at the
first receiver iteration. -/
def c4WitnessEnv : PollEnv :=
  ⟨fun _ => true, fun _ => true, fun _ => false,
    fun _ => RecvEv.msg (some 4) (some ⟨true, "res"⟩) false⟩

/-- The mutable fields of `EnsimeClient` relevant to the session manager
(`__init__`, client.py lines 39-63).  `ws` is `self.ws is not None`,
`ensime_server` whether the connection URI has been cached, `ensime`
whether a server-process handle exists.  The `responses` registry is
driven separately through `getResponse` schedules. -/
structure Client where
  ws : Bool
  ensime_server : Bool
  ensime : Bool
  call_id : Int
  number_try_connection : Int
  running : Bool
  connected : Bool
deriving DecidableEq, Repr

/-- Observable side effects of the session-manager methods, in order. -/
inductive Ev where
  | createConn (ok : Bool)  -- a `websocket.create_connection` attempt
  | wsSend (ok : Bool)      -- a `self.ws.send(...)` attempt
  | warning                 -- `sublime.error_message` via `_display_ws_warning`
  | ensimeStop              -- `self.ensime.stop()`
  | uncolorize              -- `self.env.editor.uncolorize_all()`
  | grWait (cid : Int)      -- a blocking `self.get_response(cid, timeout=30)`
  | assigned (cid : Int)    -- a `send_request` completed, returning `cid`
deriving DecidableEq, Repr

/-- Client state together with the trace of side effects so far. -/
structure Sys where
  c : Client
  trace : List Ev
deriving DecidableEq, Repr

def push (s : Sys) (e : Ev) : Sys := ⟨s.c, s.trace ++ [e]⟩

def countConn (s : Sys) : ℕ :=
  s.trace.countP (fun e => match e with | Ev.createConn _ => true | _ => false)

def countSend (s : Sys) : ℕ :=
  s.trace.countP (fun e => match e with | Ev.wsSend _ => true | _ => false)

def countWarn (s : Sys) : ℕ :=
  s.trace.countP (fun e => match e with | Ev.warning => true | _ => false)

def countGr (s : Sys) : ℕ :=
  s.trace.countP (fun e => match e with | Ev.grWait _ => true | _ => false)

/-- Oracle resolving the nondeterminism of the transport and of the
concurrently filled `responses` registry: `connOk j` is the outcome of the
`j`-th `create_connection` of the run (counted in the trace), `sendOk j` of
the `j`-th `ws.send`, and `sched j` / `grFuel` drive the `j`-th blocking
`get_response`. -/
structure Oracle where
  connOk : ℕ → Bool
  sendOk : ℕ → Bool
  sched : ℕ → ℕ → Registry
  grFuel : ℕ

/-- `EnsimeClient.shutdown_server` (client.py lines 191-199): marks the
session disconnected, stops the server process if one exists, uncolorizes;
does not touch `running`. -/
def shutdownServerM (s : Sys) : Sys :=
  let s1 : Sys := ⟨{s.c with connected := false}, s.trace⟩
  let s2 := if s1.c.ensime then push s1 Ev.ensimeStop else s1
  push s2 Ev.uncolorize

/-- The `disable_completely` closure of `connect_ensime_server` (client.py
lines 163-168): log, `shutdown_server`, then `_display_ws_warning`. -/
def disableCompletely (s : Sys) : Sys := push (shutdownServerM s) Ev.warning

/-- How a modelled call left: a normal Python return, an uncaught exception
propagating out of it (`raised`, e.g. the `KeyError` of the handshake
wait), or a wait that consumed all of its model fuel (`hung`). -/
inductive CallFlow where
  | normal
  | raised
  | hung
deriving DecidableEq, Repr

/-- The `if not self.ensime_server: … self.ensime_server = gconfig[…]`
step of `connect_ensime_server` (client.py lines 171-174). -/
def connCacheUri (s : Sys) : Sys :=
  if !s.c.ensime_server then ⟨{s.c with ensime_server := true}, s.trace⟩ else s

/-- The `with catch(websocket.WebSocketException, disable_completely):
self.ws = websocket.create_connection(…)` step (client.py lines 175-181):
on success `self.ws` is assigned; on a transport error the disable path
(shutdown plus warning) runs, `self.ws` keeps its old value, and execution
falls through after the `with` block. -/
def connAttempt (o : Oracle) (s : Sys) : Sys :=
  if o.connOk (countConn s) then
    ⟨{(push s (Ev.createConn true)).c with ws := true},
      (push s (Ev.createConn true)).trace⟩
  else disableCompletely (push s (Ev.createConn false))

/-- The `self.number_try_connection -= 1` step (client.py line 182). -/
def connBudgetDec (s : Sys) : Sys :=
  ⟨{s.c with number_try_connection := s.c.number_try_connection - 1}, s.trace⟩

/-- The state of `connect_ensime_server` after caching the URI, attempting
`create_connection` under `catch(…, disable_completely)`, and decrementing
`number_try_connection` (client.py lines 171-182). -/
def connReady (o : Oracle) (s : Sys) : Sys :=
  connBudgetDec (connAttempt o (connCacheUri s))

mutual

/-- Modelled from the spec: the `catch(websocket.WebSocketException, reconnect)`
helper comes from `util.py`, which is not under `src/`; per spec §4.1/§7 a
transport error during send selects the recovery closure and the failure of
that recovery "propagates no further than a log", so a failing retry inside
`reconnect` is swallowed.  The rest translates `EnsimeClient.send`
(client.py lines 143-155): a no-op when `self.ws is None`; on a send
failure, `reconnect` runs `connect_ensime_server()` and, if a websocket is
then present, resends the message once.  The fuel bounds the
`send → connect → send_request → send` recursion (`none` = fuel ran out). -/
def sendM (o : Oracle) : ℕ → Sys → Option (Sys × CallFlow)
  | 0, _ => none
  | fuel + 1, s =>
    if s.c.ws then
      if o.sendOk (countSend s) then
        some (push s (Ev.wsSend true), CallFlow.normal)
      else
        match connectM o fuel (push s (Ev.wsSend false)) with
        | none => none
        | some (s2, CallFlow.normal, _) =>
          if s2.c.ws then
            some (push s2 (Ev.wsSend (o.sendOk (countSend s2))), CallFlow.normal)
          else some (s2, CallFlow.normal)
        | some (s2, fl, _) => some (s2, fl)
    else some (s, CallFlow.normal)

/-- Modelled from the spec: `ConnectionInfoRequest().run_in(self.env)` comes
from `outgoing.py`, which is not under `src/`; per spec §4.1 it issues the
dedicated connection-info handshake request, i.e. sends a request through
`send_request`, yielding the assigned call id.  The rest translates
`EnsimeClient.connect_ensime_server` (client.py lines 157-189): guard on
`self.running and self.number_try_connection` (Python int truthiness, i.e.
nonzero); then `connReady` (URI caching, guarded `create_connection`,
budget decrement), the handshake request, and a blocking
`get_response(call_id, timeout=30)` — 120 ticks — whose boolean result is
returned.  When the guard fails, `disable_completely(None)` runs and
`False` is returned.  The returned `Bool` is meaningful only when the
`Flow` is `normal`. -/
def connectM (o : Oracle) : ℕ → Sys → Option (Sys × CallFlow × Bool)
  | 0, _ => none
  | fuel + 1, s =>
    if s.c.running && !(s.c.number_try_connection == 0) then
      match sendRequestM o fuel (connReady o s) with
      | none => none
      | some (s4, CallFlow.normal, some cid) =>
        match (getResponse (o.sched (countGr s4)) o.grFuel cid 120 true).outcome with
        | GROutcome.ok b => some (push s4 (Ev.grWait cid), CallFlow.normal, b)
        | GROutcome.spin => some (push s4 (Ev.grWait cid), CallFlow.hung, false)
        | _ => some (push s4 (Ev.grWait cid), CallFlow.raised, false)
      | some (s4, fl, _) => some (s4, fl, false)
    else
      some (disableCompletely s, CallFlow.normal, false)

/-- `EnsimeClient.send_request` (client.py lines 208-218): serialize the
message with the current counter, `send` it, then re-read the counter
(which nested sends may have advanced), increment it and return the re-read
value.  If the send raised, the exception propagates before the counter is
touched. -/
def sendRequestM (o : Oracle) : ℕ → Sys → Option (Sys × CallFlow × Option Int)
  | 0, _ => none
  | fuel + 1, s =>
    match sendM o fuel s with
    | none => none
    | some (s1, CallFlow.normal) =>
      some (⟨{s1.c with call_id := s1.c.call_id + 1},
          s1.trace ++ [Ev.assigned s1.c.call_id]⟩,
        CallFlow.normal, some s1.c.call_id)
    | some (s1, fl) => some (s1, fl, none)

end

/-- `n` consecutive top-level `send_request` calls (stopping early only if
the model fuel runs out). -/
def runReqs (o : Oracle) (fuel : ℕ) : ℕ → Sys → Sys
  | 0, s => s
  | n + 1, s =>
    match sendRequestM o fuel s with
    | none => s
    | some (s', _, _) => runReqs o fuel n s'

/-- The client right after `__init__` (client.py lines 39-63): no websocket,
no cached URI, counter 1, one connection attempt allowed, running, not
connected.  Whether a server-process handle exists (`setup` may or may not
have launched one) is the parameter. -/
def initSys (ensime : Bool) : Sys :=
  ⟨⟨false, false, ensime, 1, 1, true, false⟩, []⟩

/-- The call ids returned by completed `send_request` calls, in completion
order, as recorded in the trace. -/
def idsOf : List Ev → List Int
  | [] => []
  | Ev.assigned i :: t => i :: idsOf t
  | _ :: t => idsOf t

/-- The consecutive run `[a, a + 1, …, a + k - 1]`. -/
def intRange (a : Int) (k : ℕ) : List Int :=
  (List.range k).map (fun j => a + (j : ℤ))

/-- Trace-and-counter relation between two client states: the later trace
extends the earlier by a block whose completed `send_request` ids are
exactly the consecutive run starting at the earlier counter, and the
counter advanced by the block's id count. -/
def TI (tr : List Ev) (a : Int) (tr' : List Ev) (a' : Int) : Prop :=
  ∃ Δ k, tr' = tr ++ Δ ∧ idsOf Δ = intRange a k ∧ a' = a + (k : ℤ)

/-- An extension of the state that completes no `send_request`: the counter
is unchanged and the trace grows only by id-free events. -/
def NoIdExt (s t : Sys) : Prop :=
  t.c.call_id = s.c.call_id ∧ ∃ Δ, t.trace = s.trace ++ Δ ∧ idsOf Δ = []

/-- Oracle for the C5 counterexample: the transport accepts everything. -/
def c5CexOracle : Oracle := ⟨fun _ => true, fun _ => true, fun _ _ => [], 1⟩

/-- A reachable client state with a live websocket but `connected = False`
(e.g. after a handshake timeout, or after `shutdown_server`, neither of
which clears `self.ws`). -/
def c5State : Sys := ⟨⟨true, false, false, 1, 1, true, false⟩, []⟩

/-- Oracle for the C5 witness: every transport operation fails, the
handshake wait sees an empty registry (timing out after 120 ticks). -/
def c5Oracle : Oracle := ⟨fun _ => false, fun _ => false, fun _ _ => [], 125⟩

/-- A websocket-less fresh client for the no-op conjunct. -/
def c5NoWsState : Sys := ⟨⟨false, false, false, 1, 1, true, false⟩, []⟩

/-- The state after `reconnect`'s `connect_ensime_server()` in the C5
witness run (connect fails, the handshake send itself reconnects once more
and times out). -/
def c5S2 : Sys :=
  ⟨⟨true, true, false, 2, 0, true, false⟩,
   [Ev.wsSend false, Ev.createConn false, Ev.uncolorize, Ev.warning,
    Ev.wsSend false, Ev.uncolorize, Ev.warning, Ev.wsSend false,
    Ev.assigned 1, Ev.grWait 1]⟩

/-- Oracle for the C7 scenario: the transport connection attempt throws;
the handshake wait sees an empty registry. -/
def c7Oracle : Oracle := ⟨fun _ => false, fun _ => true, fun _ _ => [], 125⟩

/-- A freshly set-up client: server process launched, one connection
attempt allowed. -/
def c7Start : Sys := ⟨⟨false, false, true, 1, 1, true, false⟩, []⟩

/-- The state after the first failing `connect_ensime_server` call. -/
def c7AfterFirst : Sys :=
  ⟨⟨false, true, true, 2, 0, true, false⟩,
   [Ev.createConn false, Ev.ensimeStop, Ev.uncolorize, Ev.warning,
    Ev.assigned 1, Ev.grWait 1]⟩

/-- Oracle for the C8 witness: transport connect fails, handshake wait
times out on an empty registry. -/
def c8Oracle : Oracle := ⟨fun _ => false, fun _ => true, fun _ _ => [], 125⟩

/-- A fresh post-setup client for the guard-pass conjunct. -/
def c8Start : Sys := ⟨⟨false, false, true, 1, 1, true, false⟩, []⟩

/-- A client whose attempt budget is exhausted, for the guard-fail
conjunct. -/
def c8Dead : Sys := ⟨⟨false, true, true, 2, 0, true, false⟩, []⟩

/-- The state after the C8 witness handshake request was sent. -/
def c8S4 : Sys :=
  ⟨⟨false, true, true, 2, 0, true, false⟩,
   [Ev.createConn false, Ev.ensimeStop, Ev.uncolorize, Ev.warning,
    Ev.assigned 1]⟩

/-! ### Theorems -/

theorem rlookup_eq_none_of_rmem_false {r : Registry} {k : Int}
    (h : rmem r k = false) : rlookup r k = none := by
  unfold rmem at h
  cases hl : rlookup r k <;> simp [hl] at h ⊢

theorem grStep_exit {sched : ℕ → Registry} {cid : Int} {timeout : ℤ}
    {f n : ℕ} {start now : ℤ} {hs : List (Option Int × PyPayload)}
    (h : ¬ now - start < timeout) :
    grStep sched cid timeout (f + 1) n start now hs =
      ⟨GROutcome.ok false, now, hs, none⟩ := by
  simp [grStep, h]

theorem grStep_skip {sched : ℕ → Registry} {cid : Int} {timeout : ℤ}
    {f n : ℕ} {start now : ℤ} {hs : List (Option Int × PyPayload)}
    (h : rlookup (sched n) cid = none) (hlt : now - start < timeout) :
    grStep sched cid timeout (f + 1) n start now hs =
      grStep sched cid timeout f (n + 1) start (now + 1) hs := by
  simp [grStep, h, hlt]

theorem grStep_nil {sched : ℕ → Registry} {cid : Int} {timeout : ℤ}
    {f n : ℕ} {start now : ℤ} {hs : List (Option Int × PyPayload)} {v : PyVal}
    (h : rlookup (sched n) cid = some v) (hq : Qualify v = false)
    (hlt : now - start < timeout) :
    grStep sched cid timeout (f + 1) n start now hs =
      grStep sched cid timeout f (n + 1) start now hs := by
  simp [grStep, h, hq, hlt]

theorem grStep_hit {sched : ℕ → Registry} {cid : Int} {timeout : ℤ}
    {f n : ℕ} {start now : ℤ} {hs : List (Option Int × PyPayload)}
    {k : Int} {p : PyPayload} {ex : Bool}
    (h : rlookup (sched n) cid = some (PyVal.dict (some k) (some p) ex))
    (hk : rmem (sched n) k = true) (hlt : now - start < timeout) :
    grStep sched cid timeout (f + 1) n start now hs =
      ⟨GROutcome.ok (decide (0 < timeout)), now,
        if p.truthy then hs ++ [(some k, p)] else hs, some k⟩ := by
  simp [grStep, h, hlt, Qualify, PyVal.truthy, PyVal.isNilStr, hk]

theorem grStep_hit_stale {sched : ℕ → Registry} {cid : Int} {timeout : ℤ}
    {f n : ℕ} {start now : ℤ} {hs : List (Option Int × PyPayload)}
    {inner : Option Int} {p : PyPayload} {ex : Bool}
    (h : rlookup (sched n) cid = some (PyVal.dict inner (some p) ex))
    (hk : ∀ k, inner = some k → rmem (sched n) k = false)
    (hlt : now - start < timeout) :
    grStep sched cid timeout (f + 1) n start now hs =
      ⟨GROutcome.keyErrDel inner, now,
        if p.truthy then hs ++ [(inner, p)] else hs, none⟩ := by
  cases inner with
  | none => simp [grStep, h, hlt, Qualify, PyVal.truthy, PyVal.isNilStr]
  | some k =>
    have hk' := hk k rfl
    simp [grStep, h, hlt, Qualify, PyVal.truthy, PyVal.isNilStr, hk']

/-- If every registry entry for `cid` only appears at reads whose clock
already exceeds the timeout, the loop sleeps until `now - start` reaches
`timeout` and returns `False`, touching nothing. -/
theorem grStep_noHit {sched : ℕ → Registry} {cid : Int} {timeout : ℤ} :
    ∀ (f n : ℕ) (start now : ℤ) (hs : List (Option Int × PyPayload)),
      (∀ j : ℕ, rmem (sched (n + j)) cid = true →
        ¬ (now + (j : ℤ) - start < timeout)) →
      now - start < timeout + 1 →
      timeout - (now - start) ≤ (f : ℤ) →
      ∃ e, grStep sched cid timeout (f + 1) n start now hs =
          ⟨GROutcome.ok false, e, hs, none⟩ ∧
        timeout ≤ e - start ∧ e - start < timeout + 1 := by
  intro f
  induction f with
  | zero =>
    intro n start now hs _hmem hub hlb
    have hexit : ¬ now - start < timeout := by
      simp only [Nat.cast_zero] at hlb; omega
    exact ⟨now, grStep_exit hexit, by omega, hub⟩
  | succ f ih =>
    intro n start now hs hmem hub hlb
    by_cases hlt : now - start < timeout
    · have hnone : rlookup (sched n) cid = none := by
        apply rlookup_eq_none_of_rmem_false
        cases hm : rmem (sched n) cid
        · rfl
        · have := hmem 0 (by simpa using hm)
          simp at this; omega
      rw [grStep_skip hnone hlt]
      apply ih (n + 1) start (now + 1) hs
      · intro j hj
        have := hmem (j + 1) (by simpa [Nat.add_comm, Nat.add_assoc, Nat.add_left_comm] using hj)
        push_cast at this ⊢
        omega
      · omega
      · push_cast at hlb ⊢
        omega
    · exact ⟨now, grStep_exit hlt, by omega, hub⟩

/-- If the first `J` reads are empty and read `J` holds a well-formed
response whose inner call id is a registry key, the loop sleeps `J` times
and then consumes it, returning `True`. -/
theorem grStep_run_hit {sched : ℕ → Registry} {cid : Int} {timeout : ℤ}
    {k : Int} {p : PyPayload} {ex : Bool} :
    ∀ (J f n : ℕ) (start now : ℤ) (hs : List (Option Int × PyPayload)),
      (∀ j : ℕ, j < J → rlookup (sched (n + j)) cid = none) →
      (∀ j : ℕ, j ≤ J → now + (j : ℤ) - start < timeout) →
      rlookup (sched (n + J)) cid = some (PyVal.dict (some k) (some p) ex) →
      rmem (sched (n + J)) k = true →
      J < f →
      grStep sched cid timeout f n start now hs =
        ⟨GROutcome.ok (decide (0 < timeout)), now + (J : ℤ),
          if p.truthy then hs ++ [(some k, p)] else hs, some k⟩ := by
  intro J
  induction J with
  | zero =>
    intro f n start now hs _hnone htime hhit hk hf
    obtain ⟨f', rfl⟩ : ∃ f', f = f' + 1 := ⟨f - 1, by omega⟩
    have hlt : now - start < timeout := by simpa using htime 0 (by omega)
    simp only [Nat.add_zero] at hhit hk
    rw [grStep_hit hhit hk hlt]
    simp
  | succ J ih =>
    intro f n start now hs hnone htime hhit hk hf
    obtain ⟨f', rfl⟩ : ∃ f', f = f' + 1 := ⟨f - 1, by omega⟩
    have hlt : now - start < timeout := by simpa using htime 0 (by omega)
    rw [grStep_skip (by simpa using hnone 0 (by omega)) hlt]
    have hres := ih f' (n + 1) start (now + 1) hs
      (fun j hj => by
        have := hnone (j + 1) (by omega)
        simpa [Nat.add_comm, Nat.add_assoc, Nat.add_left_comm] using this)
      (fun j hj => by
        have := htime (j + 1) (by omega)
        push_cast at this ⊢; omega)
      (by simpa [Nat.add_comm, Nat.add_assoc, Nat.add_left_comm] using hhit)
      (by simpa [Nat.add_comm, Nat.add_assoc, Nat.add_left_comm] using hk)
      (by omega)
    rw [hres]
    congr 1
    push_cast
    omega

/-- If every read from `n` on yields a non-qualifying (nil or falsy) value
for `cid`, the loop neither sleeps nor updates `now`, so it can never reach
its timeout: it runs out of any amount of fuel. -/
theorem grStep_nil_spin {sched : ℕ → Registry} {cid : Int} {timeout : ℤ} :
    ∀ (f n : ℕ) (start now : ℤ) (hs : List (Option Int × PyPayload)),
      (∀ j : ℕ, ∃ v, rlookup (sched (n + j)) cid = some v ∧ Qualify v = false) →
      now - start < timeout →
      grStep sched cid timeout f n start now hs =
        ⟨GROutcome.spin, now, hs, none⟩ := by
  intro f
  induction f with
  | zero => intro n start now hs _ _; rfl
  | succ f ih =>
    intro n start now hs hnil hlt
    obtain ⟨v, hv, hq⟩ := hnil 0
    simp only [Nat.add_zero] at hv
    rw [grStep_nil hv hq hlt]
    exact ih (n + 1) start now hs
      (fun j => by
        obtain ⟨v', hv', hq'⟩ := hnil (j + 1)
        exact ⟨v', by simpa [Nat.add_comm, Nat.add_assoc, Nat.add_left_comm] using hv', hq'⟩)
      hlt

/-- If reads `n, …, n + K - 1` yield non-qualifying values and read `n + K`
holds a well-formed response, the loop spins in place (the clock frozen) and
then consumes it, returning `True`. -/
theorem grStep_nil_then_hit {sched : ℕ → Registry} {cid : Int} {timeout : ℤ}
    {k : Int} {p : PyPayload} {ex : Bool} :
    ∀ (K f n : ℕ) (start now : ℤ) (hs : List (Option Int × PyPayload)),
      (∀ j : ℕ, j < K → ∃ v, rlookup (sched (n + j)) cid = some v ∧ Qualify v = false) →
      rlookup (sched (n + K)) cid = some (PyVal.dict (some k) (some p) ex) →
      rmem (sched (n + K)) k = true →
      now - start < timeout →
      K < f →
      grStep sched cid timeout f n start now hs =
        ⟨GROutcome.ok (decide (0 < timeout)), now,
          if p.truthy then hs ++ [(some k, p)] else hs, some k⟩ := by
  intro K
  induction K with
  | zero =>
    intro f n start now hs _hnil hhit hk hlt hf
    obtain ⟨f', rfl⟩ : ∃ f', f = f' + 1 := ⟨f - 1, by omega⟩
    simp only [Nat.add_zero] at hhit hk
    exact grStep_hit hhit hk hlt
  | succ K ih =>
    intro f n start now hs hnil hhit hk hlt hf
    obtain ⟨f', rfl⟩ : ∃ f', f = f' + 1 := ⟨f - 1, by omega⟩
    obtain ⟨v, hv, hq⟩ := hnil 0 (by omega)
    simp only [Nat.add_zero] at hv
    rw [grStep_nil hv hq hlt]
    exact ih f' (n + 1) start now hs
      (fun j hj => by
        obtain ⟨v', hv', hq'⟩ := hnil (j + 1) (by omega)
        exact ⟨v', by simpa [Nat.add_comm, Nat.add_assoc, Nat.add_left_comm] using hv', hq'⟩)
      (by simpa [Nat.add_comm, Nat.add_assoc, Nat.add_left_comm] using hhit)
      (by simpa [Nat.add_comm, Nat.add_assoc, Nat.add_left_comm] using hk)
      hlt (by omega)

theorem rmem_true_exists {r : Registry} {k : Int} (h : rmem r k = true) :
    ∃ v, rlookup r k = some v := by
  unfold rmem at h
  exact Option.isSome_iff_exists.mp h

/-- C10: if a response for the awaited id is already present in `responses`
when `get_response` is entered, or `should_wait` is false, the call returns
`True` immediately (zero elapsed ticks), forwards nothing to the handler and
deletes no registry entry; in particular with `should_wait = False` it
returns `True` even when no response for the id exists. -/
theorem c10_immediate_true (sched : ℕ → Registry) (fuel : ℕ) (cid : Int)
    (timeout : ℤ) (sw : Bool) (ht : 0 < timeout)
    (h : sw = false ∨ rmem (sched 0) cid = true) :
    getResponse sched fuel cid timeout sw = ⟨GROutcome.ok true, 0, [], none⟩ := by
  have hd : decide (0 < timeout) = true := decide_eq_true ht
  rcases h with h | h <;> simp [getResponse, h, hd]

theorem c10_witness :
    getResponse (fun _ => []) 3 1 40 false = ⟨GROutcome.ok true, 0, [], none⟩ ∧
    getResponse (fun _ => [(1, PyVal.str "nil")]) 3 1 40 true =
      ⟨GROutcome.ok true, 0, [], none⟩ :=
  ⟨c10_immediate_true _ 3 1 40 false (by decide) (Or.inl rfl),
   c10_immediate_true _ 3 1 40 true (by decide) (Or.inr (by decide))⟩

/-- C9: after a qualifying stored envelope is found for the awaited id, the
`del self.responses[call_id]` is keyed by the `callId` read from inside the
stored envelope itself; whenever that inner id is absent (`None`) or not a
current key of the registry, the deletion raises an uncaught `KeyError` and
no registry entry is deleted — in particular the entry under the originally
awaited id stays. -/
theorem c9_delete_keyed_by_inner_id (r0 r : Registry) (cid : Int)
    (timeout : ℤ) (fuel : ℕ) (inner : Option Int) (p : PyPayload) (ex : Bool)
    (ht : 0 < timeout) (hf : 1 ≤ fuel)
    (h0 : rmem r0 cid = false)
    (hr : rlookup r cid = some (PyVal.dict inner (some p) ex))
    (hbad : ∀ k, inner = some k → rmem r k = false) :
    getResponse (fun n => if n = 0 then r0 else r) fuel cid timeout true =
      ⟨GROutcome.keyErrDel inner, 0,
        if p.truthy then [(inner, p)] else [], none⟩ := by
  obtain ⟨f, rfl⟩ : ∃ f, fuel = f + 1 := ⟨fuel - 1, by omega⟩
  have hgr : getResponse (fun n => if n = 0 then r0 else r) (f + 1) cid timeout true =
      grStep (fun n => if n = 0 then r0 else r) cid timeout (f + 1) 1 0 0 [] := by
    simp [getResponse, h0]
  rw [hgr, grStep_hit_stale (by simpa using hr)
    (fun k hk => by simpa using hbad k hk) (by omega)]
  simp

theorem c9_witness :
    getResponse
        (fun n => if n = 0 then []
          else [(1, PyVal.dict (some 2) (some ⟨true, "w"⟩) false)]) 5 1 40 true =
      ⟨GROutcome.keyErrDel (some 2), 0, [(some 2, ⟨true, "w"⟩)], none⟩ :=
  c9_delete_keyed_by_inner_id [] [(1, PyVal.dict (some 2) (some ⟨true, "w"⟩) false)]
    1 40 5 (some 2) ⟨true, "w"⟩ false (by decide) (by decide) (by decide) (by decide)
    (by
      intro k hk
      obtain rfl : (2 : Int) = k := Option.some.inj hk
      decide)

/-- C1 fails on the code: with the nil sentinel already stored for the id
when `get_response` is entered, the `wait` guard is falsy, the loop never
runs and the call returns `True` — although no qualifying (present, non-nil)
response for the id ever arrived, as the second conjunct records. -/
theorem c1_counterexample :
    getResponse (fun _ => [(1, PyVal.str "nil")]) 20 1 8 true =
      ⟨GROutcome.ok true, 0, [], none⟩ ∧
    Qualify (PyVal.str "nil") = false :=
  ⟨by decide, by decide⟩

/-- C1 (amended): restricted to the waiting path — no entry for the id at
entry — and to schedules that only ever store well-formed envelopes for the
id (non-nil dicts echoing the awaited id with a payload field, so that the
consume path neither raises nor deletes a different key), `get_response`
with `should_wait = True` returns `True` iff a response for the id was
present at some poll made before the timeout elapsed; and when no matching
entry is ever inserted, it returns `False` with elapsed time in
`[timeout, timeout + 1)` ticks, no handler call and no registry deletion. -/
theorem c1_amended (sched : ℕ → Registry) (cid : Int) (timeout : ℤ) (fuel : ℕ)
    (hwf : ∀ n v, rlookup (sched n) cid = some v → GoodEntry cid v)
    (h0 : rmem (sched 0) cid = false)
    (ht : 0 < timeout)
    (hfuel : timeout < (fuel : ℤ)) :
    ((getResponse sched fuel cid timeout true).outcome = GROutcome.ok true ↔
      ∃ n : ℕ, 1 ≤ n ∧ (n : ℤ) - 1 < timeout ∧ rmem (sched n) cid = true)
    ∧ ((∀ n, rmem (sched n) cid = false) →
      ∃ e, getResponse sched fuel cid timeout true =
          ⟨GROutcome.ok false, e, [], none⟩ ∧ timeout ≤ e ∧ e < timeout + 1) := by
  obtain ⟨f, rfl⟩ : ∃ f, fuel = f + 1 := ⟨fuel - 1, by omega⟩
  have hgr : getResponse sched (f + 1) cid timeout true =
      grStep sched cid timeout (f + 1) 1 0 0 [] := by
    simp [getResponse, h0]
  constructor
  · constructor
    · intro hok
      by_contra hne
      push_neg at hne
      obtain ⟨e, he, _, _⟩ := @grStep_noHit sched cid timeout f 1 0 0 []
        (fun j hj => by
          intro hcon
          have hj1 : (1 : ℕ) ≤ 1 + j := by omega
          have hj2 : ((1 + j : ℕ) : ℤ) - 1 < timeout := by push_cast; omega
          exact absurd hj (by simpa using hne (1 + j) hj1 hj2))
        (by omega) (by omega)
      rw [hgr, he] at hok
      simp at hok
    · rintro ⟨n, hn1, hnt, hmemn⟩
      have hex : ∃ m, rmem (sched m) cid = true := ⟨n, hmemn⟩
      have hfind1 : 1 ≤ Nat.find hex := by
        rcases Nat.eq_zero_or_pos (Nat.find hex) with h | h
        · have := Nat.find_spec hex
          rw [h, h0] at this
          simp at this
        · omega
      have hfindn : Nat.find hex ≤ n := Nat.find_min' hex hmemn
      set J := Nat.find hex - 1 with hJ
      have hJfind : 1 + J = Nat.find hex := by omega
      have hhitmem : rmem (sched (1 + J)) cid = true := by
        rw [hJfind]; exact Nat.find_spec hex
      obtain ⟨v, hv⟩ := rmem_true_exists hhitmem
      obtain ⟨p, ex, rfl⟩ := hwf _ _ hv
      have hres := @grStep_run_hit sched cid timeout cid p ex J (f + 1) 1 0 0 []
        (fun j hj => rlookup_eq_none_of_rmem_false (by
          have hlt : 1 + j < Nat.find hex := by omega
          exact Bool.eq_false_iff.2 (Nat.find_min hex hlt)))
        (fun j hj => by omega)
        hv hhitmem
        (by omega)
      rw [hgr, hres]
      simp [decide_eq_true ht]
  · intro hnone
    obtain ⟨e, he, hlb, hub⟩ := @grStep_noHit sched cid timeout f 1 0 0 []
      (fun j hj => by rw [hnone] at hj; simp at hj)
      (by omega) (by omega)
    exact ⟨e, by rw [hgr, he], by omega, by omega⟩

theorem c1_witness :
    (((getResponse c1WitnessSched 20 3 8 true).outcome = GROutcome.ok true ↔
      ∃ n : ℕ, 1 ≤ n ∧ (n : ℤ) - 1 < 8 ∧ rmem (c1WitnessSched n) 3 = true)
    ∧ ((∀ n, rmem (c1WitnessSched n) 3 = false) →
      ∃ e, getResponse c1WitnessSched 20 3 8 true =
          ⟨GROutcome.ok false, e, [], none⟩ ∧ (8 : ℤ) ≤ e ∧ e < 8 + 1)) :=
  c1_amended c1WitnessSched 3 8 20
    (by
      intro n v h
      unfold c1WitnessSched at h
      by_cases hn : n = 0
      · rw [if_pos hn] at h
        simp [rlookup] at h
      · rw [if_neg hn] at h
        have h' : PyVal.dict (some 3) (some ⟨true, "pong"⟩) false = v :=
          Option.some.inj h
        exact ⟨⟨true, "pong"⟩, false, h'.symm⟩)
    (by decide) (by decide) (by decide)

/-- C3 fails on the code: with the nil sentinel stored for the awaited id
from the first loop read on, the wait does not end — but it also never
resets its timeout window and never times out: the nil branch refreshes
neither `start` nor `now`, so the clock check is frozen and the loop is
still spinning after 100 iterations, far more than the 4-tick (1 s) timeout
plus any reset could allow, with zero elapsed ticks. -/
theorem c3_counterexample :
    getResponse (fun n => if n = 0 then [] else [(1, PyVal.str "nil")])
        100 1 4 true =
      ⟨GROutcome.spin, 0, [], none⟩ := by decide

/-- C3 (amended): on finding the nil sentinel the wait indeed does not end,
but the timeout window is not reset and cannot elapse: the nil branch never
refreshes `now`, so while every poll yields a non-qualifying value the loop
busy-spins at a frozen clock and consumes any amount of fuel; the wait ends
(returning `True`) only when a well-formed non-nil envelope for the id
replaces the sentinel. -/
theorem c3_amended (sched : ℕ → Registry) (cid : Int) (timeout : ℤ)
    (ht : 0 < timeout) (h0 : rmem (sched 0) cid = false) :
    ((∀ n : ℕ, 1 ≤ n → ∃ v, rlookup (sched n) cid = some v ∧ Qualify v = false) →
      ∀ fuel, getResponse sched fuel cid timeout true =
        ⟨GROutcome.spin, 0, [], none⟩)
    ∧ (∀ (K : ℕ) (k : Int) (p : PyPayload) (ex : Bool),
      (∀ n : ℕ, 1 ≤ n → n < K + 1 →
        ∃ v, rlookup (sched n) cid = some v ∧ Qualify v = false) →
      rlookup (sched (K + 1)) cid = some (PyVal.dict (some k) (some p) ex) →
      rmem (sched (K + 1)) k = true →
      ∀ fuel, K < fuel →
        getResponse sched fuel cid timeout true =
          ⟨GROutcome.ok true, 0, if p.truthy then [(some k, p)] else [], some k⟩) := by
  have hgr : ∀ fuel, getResponse sched fuel cid timeout true =
      grStep sched cid timeout fuel 1 0 0 [] := by
    intro fuel; simp [getResponse, h0]
  constructor
  · intro hnil fuel
    rw [hgr]
    exact @grStep_nil_spin sched cid timeout fuel 1 0 0 []
      (fun j => hnil (1 + j) (by omega)) (by omega)
  · intro K k p ex hnil hhit hk fuel hf
    rw [hgr]
    have hres := @grStep_nil_then_hit sched cid timeout k p ex K fuel 1 0 0 []
      (fun j hj => hnil (1 + j) (by omega) (by omega))
      (by simpa [Nat.add_comm] using hhit)
      (by simpa [Nat.add_comm] using hk)
      (by omega) hf
    rw [hres]
    simp [decide_eq_true ht]

theorem c3_witness :
    (getResponse c3WitnessSched1 77 5 4 true = ⟨GROutcome.spin, 0, [], none⟩)
    ∧ (getResponse c3WitnessSched2 10 5 4 true =
      ⟨GROutcome.ok true, 0, [(some 5, ⟨true, "late"⟩)], some 5⟩) :=
  ⟨(c3_amended c3WitnessSched1 5 4 (by decide) (by decide)).1
      (fun n hn => ⟨PyVal.str "nil", by
        unfold c3WitnessSched1
        rw [if_neg (by omega)]
        decide, rfl⟩) 77,
   (c3_amended c3WitnessSched2 5 4 (by decide) (by decide)).2 2 5 ⟨true, "late"⟩ true
      (by
        intro n h1 h2
        interval_cases n <;> exact ⟨PyVal.str "nil", by decide, by decide⟩)
      (by decide) (by decide) 10 (by decide)⟩

theorem rlookup_rinsert (r : Registry) (k : Int) (v : PyVal) :
    rlookup (rinsert r k v) k = some v := by
  simp [rinsert, rlookup]

theorem rlookup_rerase : ∀ (r : Registry) (k : Int),
    rlookup (rerase r k) k = none := by
  intro r k
  induction r with
  | nil => rfl
  | cons hd t ih =>
    obtain ⟨a, v⟩ := hd
    by_cases h : a = k
    · simp [rerase, h, ih]
    · simp [rerase, rlookup, h, ih]

theorem queuePollAux_no_crash (env : PollEnv)
    (hsafe : ∀ n, SafeEv (env.events n) = true) :
    ∀ (f n : ℕ) (reg : Registry) (hs : List (Option Int × PyPayload)) (sd : ℕ)
      (m : ℕ), (queuePollAux env f n reg hs sd).endState ≠ PollEnd.crashed m := by
  intro f
  induction f with
  | zero => intro n reg hs sd m; simp [queuePollAux]
  | succ f ih =>
    intro n reg hs sd m
    unfold queuePollAux
    by_cases hr : env.running n = true
    · rw [if_pos hr]
      by_cases hw : env.ws n = true
      · rw [if_pos hw]
        cases hev : env.events n with
        | wsError => exact ih _ _ _ _ m
        | badJson => have := hsafe n; rw [hev] at this; simp [SafeEv] at this
        | msg cid pay ex =>
          cases cid with
          | some k => exact ih _ _ _ _ m
          | none =>
            cases pay with
            | none =>
              have := hsafe n; rw [hev] at this; simp [SafeEv] at this
            | some p =>
              show (if p.truthy = true
                  then queuePollAux env f (n + 1) reg (hs ++ [(none, p)]) sd
                  else queuePollAux env f (n + 1) reg hs sd).endState ≠
                PollEnd.crashed m
              by_cases hp : p.truthy = true
              · rw [if_pos hp]; exact ih _ _ _ _ m
              · rw [if_neg hp]; exact ih _ _ _ _ m
      · rw [if_neg hw]; exact ih _ _ _ _ m
    · rw [if_neg hr]; simp

theorem queuePollAux_stopped (env : PollEnv) :
    ∀ (f n : ℕ) (reg : Registry) (hs : List (Option Int × PyPayload)) (sd : ℕ)
      (k : ℕ), (queuePollAux env f n reg hs sd).endState = PollEnd.stopped k →
      env.running k = false := by
  intro f
  induction f with
  | zero => intro n reg hs sd k h; simp [queuePollAux] at h
  | succ f ih =>
    intro n reg hs sd k h
    unfold queuePollAux at h
    by_cases hr : env.running n = true
    · rw [if_pos hr] at h
      by_cases hw : env.ws n = true
      · rw [if_pos hw] at h
        cases hev : env.events n with
        | wsError => rw [hev] at h; exact ih _ _ _ _ k h
        | badJson => rw [hev] at h; simp at h
        | msg cid pay ex =>
          rw [hev] at h
          cases cid with
          | some k' => exact ih _ _ _ _ k h
          | none =>
            cases pay with
            | none => simp at h
            | some p =>
              have h' : (if p.truthy = true
                  then queuePollAux env f (n + 1) reg (hs ++ [(none, p)]) sd
                  else queuePollAux env f (n + 1) reg hs sd).endState =
                  PollEnd.stopped k := h
              by_cases hp : p.truthy = true
              · rw [if_pos hp] at h'; exact ih _ _ _ _ k h'
              · rw [if_neg hp] at h'; exact ih _ _ _ _ k h'
      · rw [if_neg hw] at h; exact ih _ _ _ _ k h
    · rw [if_neg hr] at h
      simp at h
      subst h
      exact Bool.eq_false_iff.2 hr

theorem queuePollAux_forever (env : PollEnv)
    (hsafe : ∀ n, SafeEv (env.events n) = true)
    (hrun : ∀ n, env.running n = true) :
    ∀ (f n : ℕ) (reg : Registry) (hs : List (Option Int × PyPayload)) (sd : ℕ),
      (queuePollAux env f n reg hs sd).endState = PollEnd.fuelOut := by
  intro f
  induction f with
  | zero => intro n reg hs sd; rfl
  | succ f ih =>
    intro n reg hs sd
    unfold queuePollAux
    rw [if_pos (hrun n)]
    by_cases hw : env.ws n = true
    · rw [if_pos hw]
      cases hev : env.events n with
      | wsError => exact ih _ _ _ _
      | badJson => have := hsafe n; rw [hev] at this; simp [SafeEv] at this
      | msg cid pay ex =>
        cases cid with
        | some k => exact ih _ _ _ _
        | none =>
          cases pay with
          | none => have := hsafe n; rw [hev] at this; simp [SafeEv] at this
          | some p =>
            show (if p.truthy = true
                then queuePollAux env f (n + 1) reg (hs ++ [(none, p)]) sd
                else queuePollAux env f (n + 1) reg hs sd).endState =
              PollEnd.fuelOut
            by_cases hp : p.truthy = true
            · rw [if_pos hp]; exact ih _ _ _ _
            · rw [if_neg hp]; exact ih _ _ _ _
    · rw [if_neg hw]; exact ih _ _ _ _

/-- C6 fails on the code: a single receive whose message fails to parse
(`json.loads` raises, which `catch(websocket.WebSocketException, …)` does
not catch) terminates the receiver loop at its very first iteration even
though `running` is `true` at every iteration — the loop does not merely
continue past the error. -/
theorem c6_counterexample :
    queuePollLoop
        ⟨fun _ => true, fun _ => true, fun _ => false, fun _ => RecvEv.badJson⟩
        9 [] =
      ⟨PollEnd.crashed 0, [], [], 0⟩ := by decide

/-- C6 (amended): the receiver loop survives transport-level receive errors
(`WebSocketException`, caught and possibly shutting the session down) and
every well-formed message, continuing to iterate; restricted to such
receive outcomes it never terminates itself — it ends only because
`running` became false (or the observation fuel ran out).  However a
message that fails to parse, or one with neither a `"callId"` nor a
`"payload"` key, raises an uncaught exception that kills the loop, so the
restriction to `SafeEv` receive outcomes is necessary
(`c6_counterexample`). -/
theorem c6_amended (env : PollEnv)
    (hsafe : ∀ n, SafeEv (env.events n) = true) :
    (∀ (fuel : ℕ) (reg : Registry) (m : ℕ),
      (queuePollLoop env fuel reg).endState ≠ PollEnd.crashed m)
    ∧ (∀ (fuel : ℕ) (reg : Registry) (k : ℕ),
      (queuePollLoop env fuel reg).endState = PollEnd.stopped k →
        env.running k = false)
    ∧ ((∀ n, env.running n = true) → ∀ (fuel : ℕ) (reg : Registry),
      (queuePollLoop env fuel reg).endState = PollEnd.fuelOut) := by
  refine ⟨?_, ?_, ?_⟩
  · intro fuel reg m
    exact queuePollAux_no_crash env hsafe fuel 0 reg [] 0 m
  · intro fuel reg k h
    exact queuePollAux_stopped env fuel 0 reg [] 0 k h
  · intro hrun fuel reg
    exact queuePollAux_forever env hsafe hrun fuel 0 reg [] 0

theorem c6_witness :
    (∀ (fuel : ℕ) (reg : Registry) (m : ℕ),
      (queuePollLoop c6WitnessEnv fuel reg).endState ≠ PollEnd.crashed m)
    ∧ (∀ (fuel : ℕ) (reg : Registry) (k : ℕ),
      (queuePollLoop c6WitnessEnv fuel reg).endState = PollEnd.stopped k →
        c6WitnessEnv.running k = false)
    ∧ ((∀ n, c6WitnessEnv.running n = true) → ∀ (fuel : ℕ) (reg : Registry),
      (queuePollLoop c6WitnessEnv fuel reg).endState = PollEnd.fuelOut) :=
  c6_amended c6WitnessEnv (fun _ => rfl)

/-- C4: round trip.  Starting from a registry with no entry for `cid`, the
receiver loop stores an arriving envelope `{"callId": cid, "payload": p}`
under `cid`; a `get_response(cid)` that was already waiting then finds it,
returns `True`, and deletes exactly that entry, so a subsequent lookup for
`cid` in the resulting registry finds nothing. -/
theorem c4_roundtrip (r0 : Registry) (cid : Int) (p : PyPayload) (ex : Bool)
    (timeout : ℤ) (fuel : ℕ) (env : PollEnv)
    (ht : 0 < timeout) (hf : 1 ≤ fuel)
    (h0 : rmem r0 cid = false)
    (hrun : env.running 0 = true) (hws : env.ws 0 = true)
    (hev : env.events 0 = RecvEv.msg (some cid) (some p) ex) :
    (queuePollAux env 1 0 r0 [] 0).reg
        = rinsert r0 cid (PyVal.dict (some cid) (some p) ex)
    ∧ getResponse
        (fun n => if n = 0 then r0
          else rinsert r0 cid (PyVal.dict (some cid) (some p) ex))
        fuel cid timeout true =
        ⟨GROutcome.ok true, 0,
          if p.truthy then [(some cid, p)] else [], some cid⟩
    ∧ rlookup
        (rerase (rinsert r0 cid (PyVal.dict (some cid) (some p) ex)) cid)
        cid = none := by
  refine ⟨?_, ?_, ?_⟩
  · unfold queuePollAux
    rw [if_pos hrun, if_pos hws, hev]
    rfl
  · obtain ⟨f, rfl⟩ : ∃ f, fuel = f + 1 := ⟨fuel - 1, by omega⟩
    have hgr : getResponse
        (fun n => if n = 0 then r0
          else rinsert r0 cid (PyVal.dict (some cid) (some p) ex))
        (f + 1) cid timeout true =
        grStep (fun n => if n = 0 then r0
          else rinsert r0 cid (PyVal.dict (some cid) (some p) ex))
          cid timeout (f + 1) 1 0 0 [] := by
      simp [getResponse, h0]
    rw [hgr, @grStep_hit
      (fun n => if n = 0 then r0
        else rinsert r0 cid (PyVal.dict (some cid) (some p) ex))
      cid timeout f 1 0 0 [] cid p ex
      (by simp [rlookup_rinsert])
      (by simp [rmem, rlookup_rinsert]) (by omega)]
    simp [decide_eq_true ht]
  · exact rlookup_rerase _ _

theorem c4_witness :
    (queuePollAux c4WitnessEnv 1 0 [(9, PyVal.str "old")] [] 0).reg
        = rinsert [(9, PyVal.str "old")] 4
            (PyVal.dict (some 4) (some ⟨true, "res"⟩) false)
    ∧ getResponse
        (fun n => if n = 0 then [(9, PyVal.str "old")]
          else rinsert [(9, PyVal.str "old")] 4
            (PyVal.dict (some 4) (some ⟨true, "res"⟩) false))
        6 4 8 true =
        ⟨GROutcome.ok true, 0, [(some 4, ⟨true, "res"⟩)], some 4⟩
    ∧ rlookup
        (rerase (rinsert [(9, PyVal.str "old")] 4
          (PyVal.dict (some 4) (some ⟨true, "res"⟩) false)) 4) 4 = none :=
  c4_roundtrip [(9, PyVal.str "old")] 4 ⟨true, "res"⟩ false 8 6 c4WitnessEnv
    (by decide) (by decide) (by decide) rfl rfl rfl

theorem idsOf_append : ∀ xs ys : List Ev,
    idsOf (xs ++ ys) = idsOf xs ++ idsOf ys := by
  intro xs ys
  induction xs with
  | nil => rfl
  | cons e t ih => cases e <;> simp [idsOf, ih]

theorem intRange_snoc (a : Int) (k : ℕ) :
    intRange a k ++ [a + (k : ℤ)] = intRange a (k + 1) := by
  simp [intRange, List.range_succ]

theorem intRange_append (a : Int) (k1 k2 : ℕ) :
    intRange a k1 ++ intRange (a + (k1 : ℤ)) k2 = intRange a (k1 + k2) := by
  induction k2 with
  | zero => simp [intRange]
  | succ k2 ih =>
    rw [← intRange_snoc, ← List.append_assoc, ih]
    have hc : a + (k1 : ℤ) + (k2 : ℤ) = a + ((k1 + k2 : ℕ) : ℤ) := by
      push_cast; ring
    rw [hc, intRange_snoc, ← Nat.add_assoc]

theorem TI_refl (tr : List Ev) (a : Int) : TI tr a tr a :=
  ⟨[], 0, by simp, by simp [idsOf, intRange], by simp⟩

theorem TI_trans {tr : List Ev} {a : Int} {tr' : List Ev} {a' : Int}
    {tr'' : List Ev} {a'' : Int}
    (h1 : TI tr a tr' a') (h2 : TI tr' a' tr'' a'') : TI tr a tr'' a'' := by
  obtain ⟨d1, k1, rfl, hi1, rfl⟩ := h1
  obtain ⟨d2, k2, rfl, hi2, rfl⟩ := h2
  refine ⟨d1 ++ d2, k1 + k2, by simp, ?_, by push_cast; ring⟩
  rw [idsOf_append, hi1, hi2, intRange_append]

theorem TI_push {tr : List Ev} {a : Int} {tr' : List Ev} {a' : Int}
    (h : TI tr a tr' a') (e : Ev) (he : idsOf [e] = []) :
    TI tr a (tr' ++ [e]) a' :=
  TI_trans h ⟨[e], 0, rfl, by simp [he, intRange], by simp⟩

theorem TI_assign {tr : List Ev} {a : Int} {tr' : List Ev} {a' : Int}
    (h : TI tr a tr' a') :
    TI tr a (tr' ++ [Ev.assigned a']) (a' + 1) := by
  refine TI_trans h ⟨[Ev.assigned a'], 1, rfl, ?_, by simp⟩
  simp [idsOf, intRange, List.range_succ]

theorem TI_of_noIdExt {s t : Sys} (h : NoIdExt s t) :
    TI s.trace s.c.call_id t.trace t.c.call_id := by
  obtain ⟨hc, d, ht, hi⟩ := h
  exact ⟨d, 0, ht, by simp [hi, intRange], by simp [hc]⟩

theorem NoIdExt_refl (s : Sys) : NoIdExt s s := ⟨rfl, [], by simp, rfl⟩

theorem NoIdExt_push {s t : Sys} (h : NoIdExt s t) (e : Ev)
    (he : idsOf [e] = []) : NoIdExt s (push t e) := by
  obtain ⟨hc, d, ht, hi⟩ := h
  refine ⟨hc, d ++ [e], by simp [push, ht], ?_⟩
  rw [idsOf_append, hi, he]
  rfl

theorem NoIdExt_trans {s t u : Sys} (h1 : NoIdExt s t) (h2 : NoIdExt t u) :
    NoIdExt s u := by
  obtain ⟨hc1, d1, ht1, hi1⟩ := h1
  obtain ⟨hc2, d2, ht2, hi2⟩ := h2
  refine ⟨hc2.trans hc1, d1 ++ d2, by rw [ht2, ht1, List.append_assoc], ?_⟩
  rw [idsOf_append, hi1, hi2]
  rfl

theorem NoIdExt_state {s : Sys} (c' : Client) (h : c'.call_id = s.c.call_id) :
    NoIdExt s ⟨c', s.trace⟩ := ⟨h, [], by simp, rfl⟩

theorem noIdExt_shutdown (s : Sys) : NoIdExt s (shutdownServerM s) := by
  unfold shutdownServerM
  by_cases h : s.c.ensime = true <;> simp only [h, if_true, if_false, Bool.false_eq_true]
  · exact NoIdExt_push (NoIdExt_push (NoIdExt_state _ rfl) Ev.ensimeStop rfl)
      Ev.uncolorize rfl
  · exact NoIdExt_push (NoIdExt_state _ rfl) Ev.uncolorize rfl

theorem noIdExt_disable (s : Sys) : NoIdExt s (disableCompletely s) :=
  NoIdExt_push (noIdExt_shutdown s) Ev.warning rfl

theorem noIdExt_connCacheUri (s : Sys) : NoIdExt s (connCacheUri s) := by
  unfold connCacheUri
  by_cases h : s.c.ensime_server = true <;> simp only [h, Bool.not_true,
    Bool.not_false, if_true, if_false, Bool.false_eq_true]
  · exact NoIdExt_refl s
  · exact NoIdExt_state _ rfl

theorem noIdExt_connAttempt (o : Oracle) (s : Sys) :
    NoIdExt s (connAttempt o s) := by
  unfold connAttempt
  by_cases h : o.connOk (countConn s) = true
  · rw [if_pos h]
    exact NoIdExt_trans (NoIdExt_push (NoIdExt_refl s) (Ev.createConn true) rfl)
      (NoIdExt_state _ rfl)
  · rw [if_neg h]
    exact NoIdExt_trans (NoIdExt_push (NoIdExt_refl s) (Ev.createConn false) rfl)
      (noIdExt_disable _)

theorem noIdExt_connBudgetDec (s : Sys) : NoIdExt s (connBudgetDec s) :=
  NoIdExt_state _ rfl

theorem noIdExt_connReady (o : Oracle) (s : Sys) : NoIdExt s (connReady o s) :=
  NoIdExt_trans (noIdExt_connCacheUri s)
    (NoIdExt_trans (noIdExt_connAttempt o _) (noIdExt_connBudgetDec _))

/-- Every completed `sendM` / `connectM` / `sendRequestM` call extends the
trace by a block whose returned call ids are exactly the consecutive run
starting at the entry counter, advancing the counter by their number. -/
theorem traceInv (o : Oracle) : ∀ fuel : ℕ,
    (∀ s r, sendM o fuel s = some r →
      TI s.trace s.c.call_id r.1.trace r.1.c.call_id)
    ∧ (∀ s r, connectM o fuel s = some r →
      TI s.trace s.c.call_id r.1.trace r.1.c.call_id)
    ∧ (∀ s r, sendRequestM o fuel s = some r →
      TI s.trace s.c.call_id r.1.trace r.1.c.call_id) := by
  intro fuel
  induction fuel with
  | zero =>
    refine ⟨?_, ?_, ?_⟩ <;> intro s r h <;>
      simp [sendM, connectM, sendRequestM] at h
  | succ fuel ih =>
    obtain ⟨ihS, ihC, ihR⟩ := ih
    refine ⟨?_, ?_, ?_⟩
    · intro s r h
      simp only [sendM] at h
      split at h
      · split at h
        · obtain rfl := (Option.some.inj h).symm
          exact TI_push (TI_refl _ _) _ rfl
        · split at h
          · exact absurd h (by simp)
          · rename_i s2 b heq
            have h2 : TI s.trace s.c.call_id s2.trace s2.c.call_id :=
              TI_trans (TI_push (TI_refl _ _) (Ev.wsSend false) rfl) (ihC _ _ heq)
            split at h
            · obtain rfl := (Option.some.inj h).symm
              exact TI_push h2 _ rfl
            · obtain rfl := (Option.some.inj h).symm
              exact h2
          · rename_i s2 fl b hne heq
            obtain rfl := (Option.some.inj h).symm
            exact TI_trans (TI_push (TI_refl _ _) (Ev.wsSend false) rfl)
              (ihC _ _ heq)
      · obtain rfl := (Option.some.inj h).symm
        exact TI_refl _ _
    · intro s r h
      simp only [connectM] at h
      split at h
      · split at h
        · exact absurd h (by simp)
        · rename_i s4 cid heq
          have h4 : TI s.trace s.c.call_id s4.trace s4.c.call_id :=
            TI_trans (TI_of_noIdExt (noIdExt_connReady o s)) (ihR _ _ heq)
          split at h <;>
            (obtain rfl := (Option.some.inj h).symm; exact TI_push h4 _ rfl)
        · rename_i s4 fl oc hne heq
          obtain rfl := (Option.some.inj h).symm
          exact TI_trans (TI_of_noIdExt (noIdExt_connReady o s)) (ihR _ _ heq)
      · obtain rfl := (Option.some.inj h).symm
        exact TI_of_noIdExt (noIdExt_disable s)
    · intro s r h
      simp only [sendRequestM] at h
      split at h
      · exact absurd h (by simp)
      · rename_i s1 heq
        obtain rfl := (Option.some.inj h).symm
        exact TI_assign (ihS _ _ heq)
      · rename_i s1 fl hne heq
        obtain rfl := (Option.some.inj h).symm
        exact ihS _ _ heq

theorem disable_trace (s : Sys) :
    (disableCompletely s).trace = s.trace ++
      (if s.c.ensime = true then [Ev.ensimeStop, Ev.uncolorize, Ev.warning]
        else [Ev.uncolorize, Ev.warning]) := by
  unfold disableCompletely shutdownServerM push
  by_cases h : s.c.ensime = true <;> simp [h]

theorem disableCompletely_c (s : Sys) :
    (disableCompletely s).c = {s.c with connected := false} := by
  unfold disableCompletely shutdownServerM push
  by_cases h : s.c.ensime = true <;> simp [h]

theorem countConn_disable (s : Sys) :
    countConn (disableCompletely s) = countConn s := by
  unfold countConn
  rw [disable_trace, List.countP_append]
  by_cases h : s.c.ensime = true
  · rw [if_pos h]
    rfl
  · rw [if_neg h]
    rfl

theorem countWarn_disable (s : Sys) :
    countWarn (disableCompletely s) = countWarn s + 1 := by
  unfold countWarn
  rw [disable_trace, List.countP_append]
  by_cases h : s.c.ensime = true
  · rw [if_pos h]
    rfl
  · rw [if_neg h]
    rfl

theorem connReady_ntc (o : Oracle) (s : Sys) :
    (connReady o s).c.number_try_connection =
      s.c.number_try_connection - 1 := by
  have h1 : ∀ t : Sys, (connAttempt o t).c.number_try_connection =
      t.c.number_try_connection := by
    intro t
    unfold connAttempt
    by_cases h : o.connOk (countConn t) = true
    · rw [if_pos h]
      rfl
    · rw [if_neg h, disableCompletely_c]
      rfl
  have h2 : (connCacheUri s).c.number_try_connection =
      s.c.number_try_connection := by
    unfold connCacheUri
    by_cases h : s.c.ensime_server = true <;> simp [h]
  show (connAttempt o (connCacheUri s)).c.number_try_connection - 1 =
    s.c.number_try_connection - 1
  rw [h1, h2]

/-- The ids completed by any run of `n` top-level `send_request` calls from
a state whose trace already carries the consecutive ids `1, …, K0` and
whose counter is `K0 + 1`. -/
theorem runReqs_inv (o : Oracle) (fuel : ℕ) : ∀ (n : ℕ) (s : Sys) (K0 : ℕ),
    idsOf s.trace = intRange 1 K0 →
    s.c.call_id = 1 + (K0 : ℤ) →
    ∃ K : ℕ, idsOf (runReqs o fuel n s).trace = intRange 1 K ∧
      (runReqs o fuel n s).c.call_id = 1 + (K : ℤ) := by
  intro n
  induction n with
  | zero => intro s K0 h1 h2; exact ⟨K0, h1, h2⟩
  | succ n ih =>
    intro s K0 h1 h2
    simp only [runReqs]
    cases hsr : sendRequestM o fuel s with
    | none => exact ⟨K0, h1, h2⟩
    | some res =>
      obtain ⟨s1, fl, oc⟩ := res
      obtain ⟨d, k, htr, hid, hcid⟩ := (traceInv o fuel).2.2 s (s1, fl, oc) hsr
      refine ih s1 (K0 + k) ?_ ?_
      · rw [htr, idsOf_append, h1, hid, h2, intRange_append]
      · rw [hcid, h2]; push_cast; ring

/-- C2: starting from a fresh client (`call_id = 1`), over any number of
`send_request` calls and any transport behavior — sends may fail and
trigger reconnects, whose handshake itself goes through `send_request` —
the completed `send_request` calls return exactly the call ids
`1, 2, …, K` in completion order (`intRange 1 K`): strictly increasing,
starting at 1, without gaps or repeats, each id assigned exactly once; and
the counter stands at `K + 1`, so no id is ever reused. -/
theorem c2_send_request_ids (o : Oracle) (fuel n : ℕ) (ensime : Bool) :
    ∃ K : ℕ,
      idsOf (runReqs o fuel n (initSys ensime)).trace = intRange 1 K ∧
      (runReqs o fuel n (initSys ensime)).c.call_id = 1 + (K : ℤ) :=
  runReqs_inv o fuel n (initSys ensime) 0 rfl rfl

/-- C5 fails on the code: `send` is gated on `self.ws is not None`, not on
the `connected` flag.  In a state where a websocket exists but the session
is not connected, `send` is not a no-op: it performs a transport send. -/
theorem c5_counterexample :
    c5State.c.connected = false ∧
    (sendM c5CexOracle 2 c5State).map (fun r => r.1.trace) =
      some [Ev.wsSend true] := by decide

/-- C5 (amended): `send(msg)` is a no-op exactly when no websocket exists
(`self.ws is None`); the `connected` flag does not gate sends (see the
counterexample).  When a websocket exists and the transport send fails,
exactly one reconnect-and-resend is attempted — `connect_ensime_server`
once, then at most one retry of the single send, only if a websocket is
then present — and, with the `catch` helper modelled from the spec, the
retry outcome is swallowed: whenever the reconnect returns normally, `send`
returns normally to its caller regardless of the retry failing. -/
theorem c5_amended (o : Oracle) (fuel : ℕ) (s : Sys) :
    (s.c.ws = false → sendM o (fuel + 1) s = some (s, CallFlow.normal))
    ∧ (∀ s2 b, s.c.ws = true → o.sendOk (countSend s) = false →
      connectM o fuel (push s (Ev.wsSend false)) =
        some (s2, CallFlow.normal, b) →
      sendM o (fuel + 1) s =
        (if s2.c.ws = true
          then some (push s2 (Ev.wsSend (o.sendOk (countSend s2))),
            CallFlow.normal)
          else some (s2, CallFlow.normal))) := by
  constructor
  · intro hws
    simp [sendM, hws]
  · intro s2 b hws hok hc
    simp only [sendM]
    rw [if_pos hws, if_neg (by simp [hok]), hc]

theorem c5_witness :
    (sendM c5Oracle 8 c5NoWsState = some (c5NoWsState, CallFlow.normal))
    ∧ (sendM c5Oracle 8 c5State =
      (if c5S2.c.ws = true
        then some (push c5S2 (Ev.wsSend (c5Oracle.sendOk (countSend c5S2))),
          CallFlow.normal)
        else some (c5S2, CallFlow.normal))) :=
  ⟨(c5_amended c5Oracle 7 c5NoWsState).1 rfl,
   (c5_amended c5Oracle 7 c5State).2 c5S2 false rfl rfl (by decide)⟩

/-- C7 fails on the code: with one connection attempt and a transport error
on connect, the first `connect_ensime_server` call shows exactly one
warning; a second call attempts no new transport connection (the trace
still holds a single `createConn`) — but it runs `disable_completely(None)`
again and shows the warning a second time. -/
theorem c7_counterexample :
    connectM c7Oracle 6 c7Start = some (c7AfterFirst, CallFlow.normal, false)
    ∧ countWarn c7AfterFirst = 1
    ∧ connectM c7Oracle 6 c7AfterFirst =
        some (disableCompletely c7AfterFirst, CallFlow.normal, false)
    ∧ countWarn (disableCompletely c7AfterFirst) = 2
    ∧ countConn (disableCompletely c7AfterFirst) = 1 := by decide

/-- C7 (amended): with `number_try_connection = 1`, a connect attempt whose
transport connection throws emits exactly one user-visible warning, leaves
the budget at 0 and returns false — the session is permanently disabled in
the sense that no later call opens a transport connection; but each further
`connect_ensime_server` call, while attempting no new transport connection
and returning false, runs the disable path again and emits one more warning
(one warning per call once disabled, not one per disabling event). -/
theorem c7_amended :
    (connectM c7Oracle 6 c7Start = some (c7AfterFirst, CallFlow.normal, false)
      ∧ countWarn c7AfterFirst = 1 ∧ countConn c7AfterFirst = 1
      ∧ c7AfterFirst.c.number_try_connection = 0)
    ∧ (∀ (o : Oracle) (fuel : ℕ) (s : Sys),
      s.c.running = true → s.c.number_try_connection = 0 →
      connectM o (fuel + 1) s =
          some (disableCompletely s, CallFlow.normal, false)
        ∧ countConn (disableCompletely s) = countConn s
        ∧ countWarn (disableCompletely s) = countWarn s + 1) := by
  constructor
  · exact ⟨by decide, by decide, by decide, by decide⟩
  · intro o fuel s hrun hntc
    exact ⟨by simp [connectM, hrun, hntc], countConn_disable s,
      countWarn_disable s⟩

theorem c7_witness :
    connectM c7Oracle 7 c7AfterFirst =
        some (disableCompletely c7AfterFirst, CallFlow.normal, false)
      ∧ countConn (disableCompletely c7AfterFirst) = countConn c7AfterFirst
      ∧ countWarn (disableCompletely c7AfterFirst) =
          countWarn c7AfterFirst + 1 :=
  c7_amended.2 c7Oracle 6 c7AfterFirst rfl rfl

/-- C8: `connect_ensime_server` requires `running` and a nonzero
`number_try_connection` (the budget starts at 1 and only decrements, so
nonzero coincides with positive on reachable states); otherwise it runs the
disable path and returns `False` immediately, opening no transport
connection (the trace gains no `createConn`).  When the guard passes it
decrements the attempt budget, issues the connection-info handshake request
through `send_request`, blocks on `get_response(call_id, timeout=30)` — 30
time units = 120 ticks — and returns whether that handshake response
arrived in time. -/
theorem c8_connect_guard (o : Oracle) (fuel : ℕ) (s : Sys) :
    ((s.c.running = false ∨ s.c.number_try_connection = 0) →
      connectM o (fuel + 1) s =
          some (disableCompletely s, CallFlow.normal, false)
        ∧ countConn (disableCompletely s) = countConn s)
    ∧ (s.c.running = true → s.c.number_try_connection ≠ 0 →
      (connReady o s).c.number_try_connection = s.c.number_try_connection - 1
      ∧ ∀ s4 cid b,
        sendRequestM o fuel (connReady o s) =
          some (s4, CallFlow.normal, some cid) →
        (getResponse (o.sched (countGr s4)) o.grFuel cid 120 true).outcome =
          GROutcome.ok b →
        connectM o (fuel + 1) s =
          some (push s4 (Ev.grWait cid), CallFlow.normal, b)) := by
  constructor
  · intro hg
    refine ⟨?_, countConn_disable s⟩
    rcases hg with h | h
    · simp [connectM, h]
    · simp [connectM, h]
  · intro hrun hntc
    refine ⟨connReady_ntc o s, ?_⟩
    intro s4 cid b hsr hgr
    simp only [connectM]
    rw [if_pos (by simp [hrun, hntc]), hsr]
    show (match (getResponse (o.sched (countGr s4)) o.grFuel cid 120
        true).outcome with
      | GROutcome.ok b => some (push s4 (Ev.grWait cid), CallFlow.normal, b)
      | GROutcome.spin => some (push s4 (Ev.grWait cid), CallFlow.hung, false)
      | _ => some (push s4 (Ev.grWait cid), CallFlow.raised, false)) =
      some (push s4 (Ev.grWait cid), CallFlow.normal, b)
    rw [hgr]

theorem c8_witness :
    (connectM c8Oracle 4 c8Dead =
        some (disableCompletely c8Dead, CallFlow.normal, false)
      ∧ countConn (disableCompletely c8Dead) = countConn c8Dead)
    ∧ ((connReady c8Oracle c8Start).c.number_try_connection =
        c8Start.c.number_try_connection - 1
      ∧ connectM c8Oracle 6 c8Start =
        some (push c8S4 (Ev.grWait 1), CallFlow.normal, false)) := by
  refine ⟨(c8_connect_guard c8Oracle 3 c8Dead).1 (Or.inr rfl), ?_⟩
  have h := (c8_connect_guard c8Oracle 5 c8Start).2 rfl (by decide)
  exact ⟨h.1, h.2 c8S4 1 false (by decide) (by decide)⟩
